import Mathlib

/-!
Verification development for the eks-anywhere create-cluster workflow
(`pkg/workflows/create.go`) and the clusterctl wrapper
(`pkg/executables/clusterctl.go`).

The task catalog (the nine task types and their `Run` methods) is translated
directly from `pkg/workflows/create.go`.  The generic pieces that live in
`pkg/task` and `pkg/validations` (the `CommandContext.SetError` guard, the
task-chain executor loop, and the validation runner) are not part of the
visible source tree; those are modelled from the specification and are marked
as such in their doc comments.

External collaborators (Provider, Bootstrapper, ClusterManager, AddonManager,
Writer) are modelled by an `Outcomes` record giving the result each call would
return during the run; side effects of interest (bootstrap-cluster deletion
calls, config writes, handle assignments) are recorded in an event trace.
-/

namespace EksA

/-- Errors.  `mk` is an opaque error message, `validationFailed` is the
aggregated validation error naming every failed validation, `wrap` models
`fmt.Errorf("...: %v", err)` wrapping. -/
inductive Err where
  | mk (msg : String)
  | validationFailed (names : List String)
  | wrap (msg : String) (inner : Err)
deriving Repr, DecidableEq

/-- `types.Cluster`: the fields the workflow code reads (`Name`,
`KubeconfigFile`). -/
structure Cluster where
  name : String
  kubeconfigFile : String
deriving Repr, DecidableEq

/-- `validations.ValidationResult`: a named result, `err = none` meaning the
check passed. -/
structure ValidationResult where
  name : String
  err : Option Err
deriving Repr, DecidableEq

/-- Names of the failed validations, in registration order. -/
def failedNames (rs : List ValidationResult) : List String :=
  (rs.filter fun r => r.err.isSome).map ValidationResult.name

/-- Modelled from the spec: the Validation Runner of `pkg/validations` is not
in the source tree (only its call site in `SetAndValidateTask.Run` is).
Spec §4.4: `run()` executes every registered validation with no
short-circuit, collects all results, and returns a single combined error
naming every failed validation if at least one failed, or none if all passed.
The registered validations are represented by the list of results they
produce; the combined error is represented by the list of failed names. -/
def runnerRun (rs : List ValidationResult) : Option (List String) :=
  if failedNames rs = [] then none else some (failedNames rs)

/-- `task.CommandContext`: the fields of the execution context that the
create workflow reads and writes.  Collaborator handles are modelled by the
`Outcomes` record instead of context fields; the cluster spec reduces to the
data the modelled calls consume. -/
structure CommandContext where
  bootstrapCluster : Option Cluster
  workloadCluster : Option Cluster
  originalError : Option Err
  rollback : Bool
deriving Repr, DecidableEq

/-- Modelled from the spec: `CommandContext.SetError` lives in `pkg/task`,
which is not in the source tree.  Spec §4.1: records a failure; if no error
is currently captured, stores it as the original cause; if an error is
already captured, the new error is observed (logged) but does not overwrite
the original. -/
def CommandContext.setError (ctx : CommandContext) (e : Err) : CommandContext :=
  match ctx.originalError with
  | none => { ctx with originalError := some e }
  | some _ => ctx

/-- One collaborator-outcome environment for a run: the result every external
call (Provider, Bootstrapper, ClusterManager, AddonManager, Writer — spec §6,
out of scope as code) would return if made during this run.  `none` means the
call succeeds, `some e` that it fails with `e`; cluster-returning calls use
`Except`.  A single field per method models each method's behaviour for the
run. -/
structure Outcomes where
  providerName : String
  setupAndValidateCreateCluster : Option Err
  addonValidations : List ValidationResult
  bootstrapClusterOpts : Option Err
  createBootstrapCluster : Except Err Cluster
  installCapiBootstrap : Option Err
  bootstrapSetup : Option Err
  createWorkloadCluster : Except Err Cluster
  installNetworking : Option Err
  installStorageClass : Option Err
  installCapiWorkload : Option Err
  installMachineHealthChecks : Option Err
  moveCapi : Option Err
  installCustomComponents : Option Err
  createEKSAResources : Option Err
  resumeEKSAControllerReconcile : Option Err
  installGitOps : Option Err
  writeClusterConfig : Option Err
  deleteBootstrapCluster : Option Err

/-- Observable side effects of a run, recorded in order. -/
inductive Event where
  | deleteBootstrap (c : Option Cluster)
  | setBootstrapCluster (c : Cluster)
  | setWorkloadCluster (c : Cluster)
  | writeConfig
  | gitOpsInstall
  | saveLogs
deriving Repr, DecidableEq

/-- The nine task types of `pkg/workflows/create.go`. -/
inductive TaskName where
  | setAndValidate
  | createBootstrap
  | deleteKind
  | createWorkload
  | moveManagement
  | installEksa
  | installAddonManager
  | writeClusterConfig
  | deleteBootstrapT
deriving Repr, DecidableEq

/-- The validations registered by `SetAndValidateTask.Run`
(create.go:138-161): the single provider validation (named from
`Provider.Name()`, result from `SetupAndValidateCreateCluster`) followed by
`AddonManager.Validations`. -/
def registeredValidations (o : Outcomes) : List ValidationResult :=
  ⟨o.providerName ++ " Provider setup is valid", o.setupAndValidateCreateCluster⟩
    :: o.addonValidations

/-- `Run` of one task: given the collaborator outcomes and the context,
produce the updated context, the events of this step, and the successor task
(`none` = terminal).  Each arm is translated from the task's `Run` method in
`pkg/workflows/create.go` (line references in the arms). -/
def runTask (o : Outcomes) (t : TaskName) (ctx : CommandContext) :
    CommandContext × List Event × Option TaskName :=
  match t with
  | .setAndValidate =>
    -- create.go:138-150
    match runnerRun (registeredValidations o) with
    | some names => (ctx.setError (.validationFailed names), [], none)
    | none => (ctx, [], some .createBootstrap)
  | .createBootstrap =>
    -- create.go:83-113
    match o.bootstrapClusterOpts with
    | some e => (ctx.setError e, [], none)
    | none =>
      match o.createBootstrapCluster with
      | .error e => (ctx.setError e, [], some .deleteKind)
      | .ok bc =>
        let ctx1 := { ctx with bootstrapCluster := some bc }
        match o.installCapiBootstrap with
        | some e => (ctx1.setError e, [.setBootstrapCluster bc], some .deleteKind)
        | none =>
          match o.bootstrapSetup with
          | some e => (ctx1.setError e, [.setBootstrapCluster bc], some .deleteKind)
          | none => (ctx1, [.setBootstrapCluster bc], some .createWorkload)
  | .deleteKind =>
    -- create.go:121-130
    match ctx.bootstrapCluster with
    | some bc =>
      match o.deleteBootstrapCluster with
      | some e => (ctx.setError e, [.deleteBootstrap (some bc)], none)
      | none => (ctx, [.deleteBootstrap (some bc)], none)
    | none => (ctx, [], none)
  | .createWorkload =>
    -- create.go:169-207
    match o.createWorkloadCluster with
    | .error e => (ctx.setError e, [], none)
    | .ok wc =>
      let ctx1 := { ctx with workloadCluster := some wc }
      match o.installNetworking with
      | some e => (ctx1.setError e, [.setWorkloadCluster wc], none)
      | none =>
        match o.installStorageClass with
        | some e => (ctx1.setError e, [.setWorkloadCluster wc], none)
        | none =>
          match o.installCapiWorkload with
          | some e => (ctx1.setError e, [.setWorkloadCluster wc], none)
          | none =>
            match o.installMachineHealthChecks with
            | some e => (ctx1.setError e, [.setWorkloadCluster wc], none)
            | none => (ctx1, [.setWorkloadCluster wc], some .moveManagement)
  | .moveManagement =>
    -- create.go:215-224
    match o.moveCapi with
    | some e => (ctx.setError e, [], none)
    | none => (ctx, [], some .installEksa)
  | .installEksa =>
    -- create.go:232-259 (the reconcile-pause mutations touch only the
    -- cluster spec and datacenter config, which hold no modelled state)
    match o.installCustomComponents with
    | some e => (ctx.setError e, [], none)
    | none =>
      match o.createEKSAResources with
      | some e => (ctx.setError e, [], none)
      | none =>
        match o.resumeEKSAControllerReconcile with
        | some e => (ctx.setError e, [], none)
        | none => (ctx, [], some .installAddonManager)
  | .installAddonManager =>
    -- create.go:267-276: a GitOps failure is only logged, never SetError
    match o.installGitOps with
    | some _ => (ctx, [.gitOpsInstall], some .writeClusterConfig)
    | none => (ctx, [.gitOpsInstall], some .writeClusterConfig)
  | .writeClusterConfig =>
    -- create.go:282-289
    match o.writeClusterConfig with
    | some e => (ctx.setError e, [.writeConfig], some .deleteBootstrapT)
    | none => (ctx, [.writeConfig], some .deleteBootstrapT)
  | .deleteBootstrapT =>
    -- create.go:297-307
    match o.deleteBootstrapCluster with
    | some e => (ctx.setError e, [.deleteBootstrap ctx.bootstrapCluster], none)
    | none => (ctx, [.deleteBootstrap ctx.bootstrapCluster], none)

/-- Result of running a task chain to termination: final context, event
trace, the executed tasks in order, and the context after each executed
task. -/
structure RunResult where
  ctx : CommandContext
  events : List Event
  trace : List TaskName
  states : List CommandContext
deriving Repr, DecidableEq

/-- Modelled from the spec: the Task Chain Executor of `pkg/task` is not in
the source tree.  Spec §4.2: loop "run current task, receive next task" until
a task returns no successor.  `fuel` makes the loop total; the termination
theorems show that fuel 8 suffices from the first task of the create
catalog. -/
def runChain (o : Outcomes) : Nat → TaskName → CommandContext → Option RunResult
  | 0, _, _ => none
  | fuel + 1, t, ctx =>
    match runTask o t ctx with
    | (ctx1, evs, none) => some ⟨ctx1, evs, [t], [ctx1]⟩
    | (ctx1, evs, some t1) =>
      match runChain o fuel t1 ctx1 with
      | none => none
      | some r => some ⟨r.ctx, evs ++ r.events, t :: r.trace, ctx1 :: r.states⟩

/-- The context a fresh run starts from (`Create.Run`, create.go:45-53: no
handles, no error, `Rollback: false`). -/
def freshContext : CommandContext := ⟨none, none, none, false⟩

/-- A rank on the task catalog: every successor a task can return has a
strictly smaller rank, which bounds the chain length and rules out
revisiting. -/
def rank : TaskName → Nat
  | .setAndValidate => 8
  | .createBootstrap => 7
  | .createWorkload => 6
  | .moveManagement => 5
  | .installEksa => 4
  | .installAddonManager => 3
  | .writeClusterConfig => 2
  | .deleteBootstrapT => 1
  | .deleteKind => 1

theorem rank_pos (t : TaskName) : 1 ≤ rank t := by
  cases t <;> simp [rank]

theorem rank_le_eight (t : TaskName) : rank t ≤ 8 := by
  cases t <;> simp [rank]

/-- Every successor a task's `Run` returns has strictly smaller rank: the
create catalog is acyclic by construction. -/
theorem rank_decreases (o : Outcomes) (t : TaskName) (ctx : CommandContext)
    (t1 : TaskName) (h : (runTask o t ctx).2.2 = some t1) : rank t1 < rank t := by
  cases t <;> simp only [runTask] at h <;>
    (repeat' split at h) <;> simp_all [rank] <;> (cases h; decide)

/-- Fuel `rank t` always suffices: the chain from `t` terminates, its trace
starts at `t`, is at most `rank t` long, and has strictly decreasing ranks. -/
theorem runChain_total (o : Outcomes) (fuel : Nat) :
    ∀ (t : TaskName) (ctx : CommandContext), rank t ≤ fuel →
      ∃ r, runChain o fuel t ctx = some r ∧
        r.trace.head? = some t ∧
        r.trace.length ≤ rank t ∧
        (∀ b ∈ r.trace, rank b ≤ rank t) ∧
        r.trace.Pairwise (fun a b => rank b < rank a) := by
  induction fuel with
  | zero =>
    intro t ctx h
    exact absurd h (by have := rank_pos t; omega)
  | succ fuel ih =>
    intro t ctx h
    match hr : runTask o t ctx with
    | (ctx1, evs, none) =>
      refine ⟨⟨ctx1, evs, [t], [ctx1]⟩, ?_, ?_, ?_, ?_, ?_⟩
      · simp [runChain, hr]
      · rfl
      · simpa using rank_pos t
      · simp
      · simp
    | (ctx1, evs, some t1) =>
      have hlt : rank t1 < rank t := rank_decreases o t ctx t1 (by rw [hr])
      obtain ⟨r, hrun, _, hlen, hmem, hpair⟩ := ih t1 ctx1 (by omega)
      refine ⟨⟨r.ctx, evs ++ r.events, t :: r.trace, ctx1 :: r.states⟩, ?_, ?_, ?_, ?_, ?_⟩
      · simp [runChain, hr, hrun]
      · rfl
      · simpa using by omega
      · intro b hb
        rcases List.mem_cons.mp hb with hb | hb
        · subst hb; exact le_refl _
        · exact le_trans (hmem b hb) (le_of_lt hlt)
      · exact List.pairwise_cons.mpr
          ⟨fun b hb => lt_of_le_of_lt (hmem b hb) hlt, hpair⟩

/-- A strictly rank-decreasing trace has no duplicates. -/
theorem pairwise_rank_nodup {l : List TaskName}
    (h : l.Pairwise fun a b => rank b < rank a) : l.Nodup := by
  refine h.imp ?_
  intro a b hab he
  subst he
  exact lt_irrefl _ hab

@[simp] theorem setError_bootstrapCluster (ctx : CommandContext) (e : Err) :
    (ctx.setError e).bootstrapCluster = ctx.bootstrapCluster := by
  unfold CommandContext.setError; split <;> rfl

@[simp] theorem setError_workloadCluster (ctx : CommandContext) (e : Err) :
    (ctx.setError e).workloadCluster = ctx.workloadCluster := by
  unfold CommandContext.setError; split <;> rfl

/-- The invariant of claim C9 on one context: a set workload handle implies a
set bootstrap handle. -/
def Inv (ctx : CommandContext) : Prop :=
  ctx.workloadCluster.isSome → ctx.bootstrapCluster.isSome

/-- Entry condition each task is reached under within the create chain; only
the workload-creation stage needs one (the bootstrap handle is already
set when it is reached). -/
def pre : TaskName → CommandContext → Prop
  | .createWorkload, ctx => ctx.bootstrapCluster.isSome
  | _, _ => True

/-- Recognizes workload-handle assignment events. -/
def Event.isSetWorkload : Event → Bool
  | .setWorkloadCluster _ => true
  | _ => false

/-- One task step preserves the C9 invariant and establishes the entry
condition of its successor. -/
theorem runTask_inv (o : Outcomes) (t : TaskName) (ctx : CommandContext)
    (h1 : Inv ctx) (h2 : pre t ctx) :
    Inv (runTask o t ctx).1 ∧
      ∀ t1, (runTask o t ctx).2.2 = some t1 → pre t1 (runTask o t ctx).1 := by
  cases t <;> simp only [runTask] <;> (repeat' split) <;> simp_all [Inv, pre]

/-- One task step emits a workload-assignment event only if it is the
workload-creation task, and then at most one. -/
theorem runTask_setWorkload_count (o : Outcomes) (t : TaskName) (ctx : CommandContext) :
    (runTask o t ctx).2.1.countP Event.isSetWorkload ≤
      if t = TaskName.createWorkload then 1 else 0 := by
  cases t <;> simp only [runTask] <;> (repeat' split) <;>
    simp_all [Event.isSetWorkload, List.countP, List.countP.go]

/-- Chain-level invariant: every state after a task step satisfies `Inv`,
and the number of workload-assignment events is bounded by the number of
times the workload-creation task appears in the trace. -/
theorem runChain_inv (o : Outcomes) (fuel : Nat) :
    ∀ (t : TaskName) (ctx : CommandContext) (r : RunResult),
      runChain o fuel t ctx = some r → Inv ctx → pre t ctx →
      (∀ s ∈ r.states, Inv s) ∧
      r.events.countP Event.isSetWorkload ≤
        r.trace.countP (fun b => b = TaskName.createWorkload) := by
  induction fuel with
  | zero => intro t ctx r h; simp [runChain] at h
  | succ fuel ih =>
    intro t ctx r h hInv hpre
    rw [runChain] at h
    match hr : runTask o t ctx with
    | (ctx1, evs, none) =>
      rw [hr] at h
      obtain ⟨hInv1, _⟩ := runTask_inv o t ctx hInv hpre
      rw [hr] at hInv1
      cases h
      constructor
      · intro s hs
        rcases List.mem_singleton.mp hs with rfl
        exact hInv1
      · have hc := runTask_setWorkload_count o t ctx
        rw [hr] at hc
        simp only [List.countP_cons, List.countP_nil]
        split <;> simp_all
    | (ctx1, evs, some t1) =>
      rw [hr] at h
      dsimp only at h
      obtain ⟨hInv1, hpre1⟩ := runTask_inv o t ctx hInv hpre
      rw [hr] at hInv1 hpre1
      dsimp only at hInv1 hpre1
      match hrec : runChain o fuel t1 ctx1 with
      | none => rw [hrec] at h; cases h
      | some r1 =>
        rw [hrec] at h
        cases h
        obtain ⟨hstates, hcount⟩ := ih t1 ctx1 r1 hrec hInv1 (hpre1 t1 rfl)
        constructor
        · intro s hs
          rcases List.mem_cons.mp hs with rfl | hs
          · exact hInv1
          · exact hstates s hs
        · have hc := runTask_setWorkload_count o t ctx
          rw [hr] at hc
          dsimp only at hc
          simp only [List.countP_append, List.countP_cons]
          by_cases ht : t = TaskName.createWorkload
          · subst ht
            simp at hc ⊢
            omega
          · rw [if_neg ht] at hc
            simp [ht]
            omega

/-- Recognizes bootstrap-cluster deletion calls in the event trace. -/
def Event.isDeleteBootstrap : Event → Bool
  | .deleteBootstrap _ => true
  | _ => false

/-- Recognizes cluster-config writes in the event trace. -/
def Event.isWriteConfig : Event → Bool
  | .writeConfig => true
  | _ => false

/-- The outcome of one full chain run from the first task of the create
catalog: final original error, events (with the best-effort `SaveLogs` on
failure, create.go:55-57), and executed tasks.  The executor returning the
captured original error is modelled from spec §4.2 (`pkg/task` is not in the
source tree). -/
def chainOutcome (o : Outcomes) : Option Err × List Event × List TaskName :=
  match runChain o 8 .setAndValidate freshContext with
  | some r =>
    (r.ctx.originalError,
     r.events ++ (if r.ctx.originalError.isSome then [.saveLogs] else []),
     r.trace)
  | none => (none, [], [])

/-- Translation of `Create.Run` (create.go:37-59): with `forceCleanup` set,
first delete any pre-existing bootstrap cluster named after the spec's
cluster name; if that fails, return the error before the context is built
and before any task runs.  `forceDeleteResult` is the outcome of that
pre-chain deletion call. -/
def createRun (o : Outcomes) (forceDeleteResult : Option Err) (specName : String)
    (forceCleanup : Bool) : Option Err × List Event × List TaskName :=
  if forceCleanup then
    match forceDeleteResult with
    | some e => (some e, [.deleteBootstrap (some ⟨specName, ""⟩)], [])
    | none =>
      let r := chainOutcome o
      (r.1, .deleteBootstrap (some ⟨specName, ""⟩) :: r.2.1, r.2.2)
  else chainOutcome o

/-- A collaborator environment in which every call succeeds. -/
def happyO : Outcomes where
  providerName := "vsphere"
  setupAndValidateCreateCluster := none
  addonValidations := [⟨"create preflight validations pass", none⟩]
  bootstrapClusterOpts := none
  createBootstrapCluster := .ok ⟨"prod", "prod.bootstrap.kubeconfig"⟩
  installCapiBootstrap := none
  bootstrapSetup := none
  createWorkloadCluster := .ok ⟨"prod", "prod.kubeconfig"⟩
  installNetworking := none
  installStorageClass := none
  installCapiWorkload := none
  installMachineHealthChecks := none
  moveCapi := none
  installCustomComponents := none
  createEKSAResources := none
  resumeEKSAControllerReconcile := none
  installGitOps := none
  writeClusterConfig := none
  deleteBootstrapCluster := none

/-- The full-chain result under `happyO` (used to instantiate run-level
theorems at a concrete input). -/
def happyR : RunResult :=
  (runChain happyO 8 .setAndValidate freshContext).getD ⟨freshContext, [], [], []⟩

/-! ### Clusterctl (`pkg/executables/clusterctl.go`) -/

/-- The parts of the cluster spec and versions bundle that
`Clusterctl.buildConfig` and `InitInfrastructure` read, including the
`ExternalEtcdConfiguration != nil` flag (clusterctl.go:190). -/
structure ClusterctlSpecData where
  bootstrapVersion : String
  controlPlaneVersion : String
  clusterAPIVersion : String
  etcdadmBootstrapVersion : String
  etcdadmControllerVersion : String
  externalEtcdConfiguration : Bool
deriving Repr, DecidableEq

/-- Outcomes of the external calls `Clusterctl` makes: `os.Getwd`, the
templater write of `clusterctl_tmp.yaml`, the overrides layer, the
provider's `EnvMap`, and `Executable.ExecuteWithEnv`; plus the provider name
and version strings used for the `--infrastructure` flag. -/
structure ClusterctlEnv where
  getwd : Except Err String
  writeToFile : Except Err String
  buildOverridesLayer : Option Err
  envMap : Option Err
  executeWithEnv : Option Err
  providerName : String
  providerVersion : String

/-- Observable side effects of `Clusterctl`: config-file generation,
overrides-layer generation, and execution of the external binary. -/
inductive CtlEvent where
  | wroteConfigFile
  | wroteOverrides
  | executedWithEnv (params : List String)
deriving Repr, DecidableEq

/-- `clusterctlConfiguration` (clusterctl.go:35-42). -/
structure ClusterctlConfiguration where
  coreVersion : String
  bootstrapVersion : String
  controlPlaneVersion : String
  configFile : String
  etcdadmBootstrapVersion : String
  etcdadmControllerVersion : String
deriving Repr, DecidableEq

/-- Translation of `Clusterctl.buildConfig` (clusterctl.go:211-278): get the
working directory, render `clusterctl_tmp.yaml`, build the overrides layer,
then assemble the version strings. -/
def buildConfig (env : ClusterctlEnv) (d : ClusterctlSpecData) :
    Except Err ClusterctlConfiguration × List CtlEvent :=
  match env.getwd with
  | .error e => (.error e, [])
  | .ok _ =>
    match env.writeToFile with
    | .error e =>
      (.error (.wrap "error generating configuration file for clusterctl" e), [])
    | .ok filePath =>
      match env.buildOverridesLayer with
      | some e => (.error e, [.wroteConfigFile])
      | none =>
        (.ok ⟨"cluster-api:" ++ d.clusterAPIVersion,
              "kubeadm:" ++ d.bootstrapVersion,
              "kubeadm:" ++ d.controlPlaneVersion,
              filePath,
              "etcdadm-bootstrap:" ++ d.etcdadmBootstrapVersion,
              "etcdadm-controller:" ++ d.etcdadmControllerVersion⟩,
         [.wroteConfigFile, .wroteOverrides])

/-- Translation of `Clusterctl.InitInfrastructure` (clusterctl.go:170-209):
guard against a nil cluster and an empty cluster name, build the config,
assemble the `init` parameters, then run the executable with the provider's
environment. -/
def initInfrastructure (env : ClusterctlEnv) (d : ClusterctlSpecData)
    (cluster : Option Cluster) : Except Err Unit × List CtlEvent :=
  match cluster with
  | none => (.error (.mk "invalid cluster (nil)"), [])
  | some cl =>
    if cl.name = "" then
      (.error (.mk ("invalid cluster name '" ++ cl.name ++ "'")), [])
    else
      match buildConfig env d with
      | (.error e, evs) => (.error e, evs)
      | (.ok cfg, evs) =>
        let params := ["init", "--core", cfg.coreVersion,
          "--bootstrap", cfg.bootstrapVersion,
          "--control-plane", cfg.controlPlaneVersion,
          "--infrastructure", env.providerName ++ ":" ++ env.providerVersion,
          "--config", cfg.configFile]
        let params1 := if d.externalEtcdConfiguration then
            params ++ ["--bootstrap", cfg.etcdadmBootstrapVersion,
                       "--bootstrap", cfg.etcdadmControllerVersion]
          else params
        let params2 := if cl.kubeconfigFile ≠ "" then
            params1 ++ ["--kubeconfig", cl.kubeconfigFile]
          else params1
        match env.envMap with
        | some e => (.error e, evs)
        | none =>
          match env.executeWithEnv with
          | some e =>
            (.error (.wrap "error executing init" e), evs ++ [.executedWithEnv params2])
          | none => (.ok (), evs ++ [.executedWithEnv params2])

/-- The guard condition of `InitInfrastructure`: nil cluster or empty
cluster name. -/
def clusterInvalid : Option Cluster → Bool
  | none => true
  | some cl => cl.name == ""

/-- Whether an `InitInfrastructure` result is an error. -/
def exceptIsError : Except Err Unit → Bool
  | .error _ => true
  | .ok _ => false

/-! ### Claim theorems -/

/-- Once an error is captured, any further `setError` calls leave it
untouched. -/
theorem setError_preserves_some (x : Err) :
    ∀ (es : List Err) (ctx : CommandContext), ctx.originalError = some x →
      (es.foldl CommandContext.setError ctx).originalError = some x := by
  intro es
  induction es with
  | nil => intro ctx h; simpa using h
  | cons e es ih =>
    intro ctx h
    rw [List.foldl_cons]
    exact ih (ctx.setError e) (by simp [CommandContext.setError, h])

/-- C1: first-error wins.  For any sequence of `setError` calls
`e :: es` on a context with no captured error, the captured original error
after the whole sequence is the first error `e`; no later call replaces it,
so the error the run finally reports is the first root cause. -/
theorem first_error_wins (ctx : CommandContext) (h : ctx.originalError = none)
    (e : Err) (es : List Err) :
    ((e :: es).foldl CommandContext.setError ctx).originalError = some e := by
  rw [List.foldl_cons]
  exact setError_preserves_some e es (ctx.setError e)
    (by simp [CommandContext.setError, h])

theorem first_error_wins_witness :
    freshContext.originalError = none ∧
    (([Err.mk "boom", Err.mk "cleanup failed"]).foldl
        CommandContext.setError freshContext).originalError = some (Err.mk "boom") :=
  ⟨rfl, first_error_wins freshContext rfl (Err.mk "boom") [Err.mk "cleanup failed"]⟩

/-- C3: addon isolation.  Whatever `InstallGitOps` returns, the
addon-manager task leaves the context (in particular its captured error)
completely unchanged and its successor is the write-cluster-config task,
exactly as on success. -/
theorem addon_failure_isolated (o : Outcomes) (ctx : CommandContext) :
    (runTask o .installAddonManager ctx).1 = ctx ∧
    (runTask o .installAddonManager ctx).2.2 = some .writeClusterConfig := by
  cases h : o.installGitOps <;> simp [runTask, h]

/-- C5: validation aggregation.  For registered validations `rs` with any
permutation `rs1` of them: `run()` returns no error iff zero validations
fail; a returned combined error names exactly the failing validations (same
count, and a name is in it iff some failing validation bears it); and up to
multiset equality the answer is independent of registration order. -/
theorem validation_aggregation (rs rs1 : List ValidationResult) (hperm : rs.Perm rs1) :
    (runnerRun rs = none ↔ (rs.filter fun r => r.err.isSome).length = 0) ∧
    (∀ l, runnerRun rs = some l →
        l.length = (rs.filter fun r => r.err.isSome).length ∧
        ∀ n, n ∈ l ↔ ∃ r ∈ rs, r.err.isSome ∧ r.name = n) ∧
    Option.map Multiset.ofList (runnerRun rs) =
      Option.map Multiset.ofList (runnerRun rs1) := by
  have hNames : (failedNames rs).Perm (failedNames rs1) :=
    (hperm.filter _).map _
  have hlen : (failedNames rs).length = (rs.filter fun r => r.err.isSome).length := by
    simp [failedNames]
  refine ⟨?_, ?_, ?_⟩
  · constructor
    · intro h
      rw [runnerRun] at h
      split at h
      · rename_i hnil
        rw [← hlen, hnil]
        rfl
      · cases h
    · intro h
      have hnil : failedNames rs = [] := by
        rw [← List.length_eq_zero, hlen]
        exact h
      rw [runnerRun, if_pos hnil]
  · intro l hl
    rw [runnerRun] at hl
    split at hl
    · cases hl
    · injection hl with hl
      subst hl
      refine ⟨hlen, ?_⟩
      intro n
      constructor
      · intro hn
        rw [failedNames] at hn
        obtain ⟨r, hr, hname⟩ := List.mem_map.mp hn
        obtain ⟨hrs, hsome⟩ := List.mem_filter.mp hr
        exact ⟨r, hrs, by simpa using hsome, hname⟩
      · rintro ⟨r, hrs, hsome, hname⟩
        rw [failedNames]
        exact List.mem_map.mpr ⟨r, List.mem_filter.mpr ⟨hrs, by simpa using hsome⟩, hname⟩
  · have hnil_iff : failedNames rs = [] ↔ failedNames rs1 = [] := by
      constructor
      · intro h
        have h2 : (failedNames rs1).Perm [] := (h ▸ hNames).symm
        exact h2.eq_nil
      · intro h
        have h2 : (failedNames rs).Perm [] := h ▸ hNames
        exact h2.eq_nil
    rw [runnerRun, runnerRun]
    by_cases hnil : failedNames rs = []
    · rw [if_pos hnil, if_pos (hnil_iff.mp hnil)]
    · rw [if_neg hnil, if_neg (fun hc => hnil (hnil_iff.mpr hc))]
      have hms : Multiset.ofList (failedNames rs) = Multiset.ofList (failedNames rs1) :=
        Multiset.coe_eq_coe.mpr hNames
      show some (Multiset.ofList (failedNames rs)) = some (Multiset.ofList (failedNames rs1))
      rw [hms]

/-- Sample registered validations: one passing, two failing. -/
def sampleValidations : List ValidationResult :=
  [⟨"a ok", none⟩, ⟨"b bad", some (Err.mk "b failed")⟩,
   ⟨"c bad", some (Err.mk "c failed")⟩]

/-- `sampleValidations` in another registration order. -/
def sampleValidations1 : List ValidationResult :=
  [⟨"c bad", some (Err.mk "c failed")⟩, ⟨"a ok", none⟩,
   ⟨"b bad", some (Err.mk "b failed")⟩]

theorem validation_aggregation_witness :
    sampleValidations.Perm sampleValidations1 ∧
    ((runnerRun sampleValidations = none ↔
        (sampleValidations.filter fun r => r.err.isSome).length = 0) ∧
      (∀ l, runnerRun sampleValidations = some l →
        l.length = (sampleValidations.filter fun r => r.err.isSome).length ∧
        ∀ n, n ∈ l ↔ ∃ r ∈ sampleValidations, r.err.isSome ∧ r.name = n) ∧
      Option.map Multiset.ofList (runnerRun sampleValidations) =
        Option.map Multiset.ofList (runnerRun sampleValidations1)) :=
  ⟨by decide, validation_aggregation sampleValidations sampleValidations1 (by decide)⟩

/-- C10: `InitInfrastructure` rejects a nil cluster and an empty cluster
name up front: the result is an error and no side effect happens — no
config file or overrides layer is generated and no external command is
executed. -/
theorem initInfrastructure_rejects_invalid (env : ClusterctlEnv)
    (d : ClusterctlSpecData) (cluster : Option Cluster)
    (h : clusterInvalid cluster = true) :
    exceptIsError (initInfrastructure env d cluster).1 = true ∧
    (initInfrastructure env d cluster).2 = [] := by
  match cluster with
  | none => exact ⟨rfl, rfl⟩
  | some cl =>
    have hname : cl.name = "" := by
      simpa [clusterInvalid] using h
    simp [initInfrastructure, hname, exceptIsError]

/-- C2: chain termination.  From the Validate task, for every combination of
collaborator-call outcomes and every starting context, the chain reaches a
terminal task (the executor loop completes within fuel 8), executes at most
8 tasks, and never executes the same task twice. -/
theorem chain_terminates_within_eight (o : Outcomes) (ctx : CommandContext) :
    ∃ r, runChain o 8 .setAndValidate ctx = some r ∧
      r.trace.length ≤ 8 ∧ r.trace.Nodup := by
  obtain ⟨r, hrun, _, hlen, _, hpair⟩ :=
    runChain_total o 8 .setAndValidate ctx (by decide)
  exact ⟨r, hrun, hlen, pairwise_rank_nodup hpair⟩

/-- C4: write-config failure handling.  The write-cluster-config task always
hands over to the bootstrap-deletion task, on success as on failure; and
when the config write fails with `e` on a run with no prior failure, `e` is
captured and remains the run's reported error even though the subsequent
bootstrap deletion succeeds. -/
theorem write_config_failure_persists (o : Outcomes) (ctx : CommandContext)
    (e : Err) (hfirst : ctx.originalError = none)
    (hdel : o.deleteBootstrapCluster = none) :
    (runTask o .writeClusterConfig ctx).2.2 = some .deleteBootstrapT ∧
    Option.map (fun r => (r.ctx.originalError, r.trace))
        (runChain { o with writeClusterConfig := some e } 8
          .writeClusterConfig ctx) =
      some (some e, [.writeClusterConfig, .deleteBootstrapT]) := by
  constructor
  · cases h : o.writeClusterConfig <;> simp [runTask, h]
  · simp [runChain, runTask, hdel, CommandContext.setError, hfirst]

theorem write_config_failure_persists_witness :
    freshContext.originalError = none ∧
    happyO.deleteBootstrapCluster = none ∧
    ((runTask happyO .writeClusterConfig freshContext).2.2 =
        some .deleteBootstrapT ∧
      Option.map (fun r => (r.ctx.originalError, r.trace))
          (runChain { happyO with writeClusterConfig := some (Err.mk "disk full") } 8
            .writeClusterConfig freshContext) =
        some (some (Err.mk "disk full"), [.writeClusterConfig, .deleteBootstrapT])) :=
  ⟨rfl, rfl, write_config_failure_persists happyO freshContext (Err.mk "disk full") rfl rfl⟩

/-- C6: when the create-bootstrap-cluster stage fails, a deletion call is
issued to the bootstrapper during the remaining chain if and only if the
bootstrap cluster handle was actually set on the context; with no handle the
chain terminates without any deletion call. -/
theorem delete_called_iff_created (o : Outcomes) (ctx : CommandContext)
    (r : RunResult) (hfresh : ctx.bootstrapCluster = none)
    (hfail : (runTask o .createBootstrap ctx).2.2 ≠ some .createWorkload)
    (hrun : runChain o 8 .createBootstrap ctx = some r) :
    r.events.any Event.isDeleteBootstrap = r.ctx.bootstrapCluster.isSome := by
  rcases h1 : o.bootstrapClusterOpts with _ | e1
  · rcases h2 : o.createBootstrapCluster with e2 | bc
    · -- the CreateBootstrapCluster call itself fails: DeleteKindClusterTask
      -- runs but finds no handle and issues no deletion
      simp [runChain, runTask, h1, h2, hfresh] at hrun
      subst hrun
      simp [hfresh]
    · rcases h3 : o.installCapiBootstrap with _ | e3
      · rcases h4 : o.bootstrapSetup with _ | e4
        · -- the stage succeeds, contradicting `hfail`
          exact absurd (by simp [runTask, h1, h2, h3, h4]) hfail
        · rcases h5 : o.deleteBootstrapCluster with _ | e5 <;>
            · simp [runChain, runTask, h1, h2, h3, h4, h5, hfresh] at hrun
              subst hrun
              simp [Event.isDeleteBootstrap]
      · rcases h5 : o.deleteBootstrapCluster with _ | e5 <;>
          · simp [runChain, runTask, h1, h2, h3, h5, hfresh] at hrun
            subst hrun
            simp [Event.isDeleteBootstrap]
  · -- BootstrapClusterOpts fails: terminal at once, no handle, no deletion
    simp [runChain, runTask, h1, hfresh] at hrun
    subst hrun
    simp [hfresh]

/-- The outcomes under which installing cluster-api on the bootstrap cluster
fails. -/
def capiFailO : Outcomes :=
  { happyO with installCapiBootstrap := some (.mk "error installing capi") }

/-- The full-chain result from the create-bootstrap task under `capiFailO`. -/
def capiFailR : RunResult :=
  (runChain capiFailO 8 .createBootstrap freshContext).getD ⟨freshContext, [], [], []⟩

theorem delete_called_iff_created_witness :
    freshContext.bootstrapCluster = none ∧
    (runTask capiFailO .createBootstrap freshContext).2.2 ≠ some .createWorkload ∧
    runChain capiFailO 8 .createBootstrap freshContext = some capiFailR ∧
    capiFailR.events.any Event.isDeleteBootstrap = capiFailR.ctx.bootstrapCluster.isSome :=
  ⟨rfl, by decide, rfl,
    delete_called_iff_created capiFailO freshContext capiFailR rfl (by decide) rfl⟩

/-- C8: forced cleanup.  With `forceCleanup` set, the deletion of the
pre-existing bootstrap cluster named after the spec's cluster name is the
first action for every deletion outcome; and when that deletion fails, the
entry point returns exactly that error with no task of the chain executed
and no other side effect. -/
theorem force_cleanup_pre_chain (o : Outcomes) (specName : String) (e : Err) :
    (∀ fd, ((createRun o fd specName true).2.1).head? =
        some (.deleteBootstrap (some ⟨specName, ""⟩))) ∧
    createRun o (some e) specName true =
      (some e, [.deleteBootstrap (some ⟨specName, ""⟩)], []) := by
  constructor
  · intro fd
    cases fd <;> simp [createRun]
  · simp [createRun]

/-- A strictly rank-decreasing task list holds any given task at most
once. -/
theorem countP_task_le_one {l : List TaskName}
    (h : l.Pairwise fun a b => rank b < rank a) (a : TaskName) :
    l.countP (fun b => b = a) ≤ 1 := by
  induction l with
  | nil => simp
  | cons x xs ih =>
    rcases List.pairwise_cons.mp h with ⟨hx, hxs⟩
    rw [List.countP_cons]
    by_cases hxa : x = a
    · subst hxa
      have hz : xs.countP (fun b => decide (b = x)) = 0 := by
        rw [List.countP_eq_zero]
        intro b hb
        simp only [decide_eq_true_eq]
        intro he
        subst he
        exact lt_irrefl _ (hx b hb)
      simp [hz]
    · have h1 := ih hxs
      simp only [decide_eq_true_eq, if_neg hxa]
      omega

/-- The C9 invariant as a boolean check on one context. -/
theorem inv_bool {s : CommandContext} (h : Inv s) :
    (s.bootstrapCluster.isSome || !s.workloadCluster.isSome) = true := by
  rcases hw : s.workloadCluster with _ | w
  · simp [hw]
  · have hb := h (by simp [hw])
    simp [hb]

/-- C9: single assignment after bootstrap.  In any run of the create chain
from a fresh context, the workload cluster handle is assigned at most once,
and every reachable state (the initial context and the context after each
executed task) with a set workload handle also has a set bootstrap
handle. -/
theorem workload_single_assignment (o : Outcomes) (r : RunResult)
    (hrun : runChain o 8 .setAndValidate freshContext = some r) :
    r.events.countP Event.isSetWorkload ≤ 1 ∧
    ((freshContext :: r.states).all fun s =>
        s.bootstrapCluster.isSome || !s.workloadCluster.isSome) = true := by
  obtain ⟨hstates, hcount⟩ := runChain_inv o 8 .setAndValidate freshContext r hrun
    (by intro h; simp [freshContext] at h) trivial
  obtain ⟨r1, hrun1, _, _, _, hpair⟩ :=
    runChain_total o 8 .setAndValidate freshContext (by decide)
  rw [hrun] at hrun1
  injection hrun1 with hr1
  subst hr1
  constructor
  · exact le_trans hcount (countP_task_le_one hpair _)
  · rw [List.all_eq_true]
    intro s hs
    rcases List.mem_cons.mp hs with rfl | hs
    · simp [freshContext]
    · exact inv_bool (hstates s hs)

theorem workload_single_assignment_witness :
    runChain happyO 8 .setAndValidate freshContext = some happyR ∧
    (happyR.events.countP Event.isSetWorkload ≤ 1 ∧
      ((freshContext :: happyR.states).all fun s =>
          s.bootstrapCluster.isSome || !s.workloadCluster.isSome) = true) :=
  ⟨rfl, workload_single_assignment happyO happyR rfl⟩

/-- Counterexample to C7 as stated: on the all-success run the final
execution context still holds the bootstrap cluster handle — the handle is
never cleared by `DeleteBootstrapClusterTask`, it is only the cluster that
is deleted. -/
theorem happy_bootstrap_handle_not_cleared :
    Option.map (fun r => r.ctx.bootstrapCluster)
        (runChain happyO 8 .setAndValidate freshContext) =
      some (some ⟨"prod", "prod.bootstrap.kubeconfig"⟩) ∧
    Option.map (fun r => r.ctx.bootstrapCluster)
        (runChain happyO 8 .setAndValidate freshContext) ≠ some none :=
  ⟨rfl, by decide⟩

/-- C7 (amended): happy path.  When every stage's collaborator calls
succeed, the run from a fresh context ends with the workload cluster handle
set, the bootstrap cluster deletion call issued (the handle itself remains
set on the context), no captured error, and the cluster config written
exactly once. -/
theorem happy_path_final_state (o : Outcomes) (bc wc : Cluster)
    (h1 : o.setupAndValidateCreateCluster = none)
    (h2 : o.addonValidations.all (fun v => v.err.isNone) = true)
    (h3 : o.bootstrapClusterOpts = none)
    (h4 : o.createBootstrapCluster = .ok bc)
    (h5 : o.installCapiBootstrap = none)
    (h6 : o.bootstrapSetup = none)
    (h7 : o.createWorkloadCluster = .ok wc)
    (h8 : o.installNetworking = none)
    (h9 : o.installStorageClass = none)
    (h10 : o.installCapiWorkload = none)
    (h11 : o.installMachineHealthChecks = none)
    (h12 : o.moveCapi = none)
    (h13 : o.installCustomComponents = none)
    (h14 : o.createEKSAResources = none)
    (h15 : o.resumeEKSAControllerReconcile = none)
    (h16 : o.installGitOps = none)
    (h17 : o.writeClusterConfig = none)
    (h18 : o.deleteBootstrapCluster = none) :
    Option.map (fun r => (r.ctx.workloadCluster, r.ctx.bootstrapCluster,
        r.ctx.originalError, r.events.countP Event.isWriteConfig,
        r.events.any Event.isDeleteBootstrap))
      (runChain o 8 .setAndValidate freshContext) =
      some (some wc, some bc, none, 1, true) := by
  have hforall : ∀ v ∈ o.addonValidations, v.err = none := by
    intro v hv
    have := List.all_eq_true.mp h2 v hv
    simpa [Option.isNone_iff_eq_none] using this
  have hnil : failedNames (registeredValidations o) = [] := by
    rw [failedNames, registeredValidations]
    simp [List.filter_eq_nil_iff, h1]
    intro v hv
    simp [hforall v hv]
  have hv : runnerRun (registeredValidations o) = none := by
    rw [runnerRun, if_pos hnil]
  simp [runChain, runTask, hv, h3, h4, h5, h6, h7, h8, h9, h10, h11, h12,
    h13, h14, h15, h16, h17, h18, Event.isWriteConfig, Event.isDeleteBootstrap,
    List.countP_cons, freshContext]

theorem happy_path_final_state_witness :
    happyO.setupAndValidateCreateCluster = none ∧
    happyO.addonValidations.all (fun v => v.err.isNone) = true ∧
    happyO.bootstrapClusterOpts = none ∧
    happyO.createBootstrapCluster = .ok ⟨"prod", "prod.bootstrap.kubeconfig"⟩ ∧
    happyO.createWorkloadCluster = .ok ⟨"prod", "prod.kubeconfig"⟩ ∧
    Option.map (fun r => (r.ctx.workloadCluster, r.ctx.bootstrapCluster,
        r.ctx.originalError, r.events.countP Event.isWriteConfig,
        r.events.any Event.isDeleteBootstrap))
      (runChain happyO 8 .setAndValidate freshContext) =
      some (some ⟨"prod", "prod.kubeconfig"⟩,
        some ⟨"prod", "prod.bootstrap.kubeconfig"⟩, none, 1, true) :=
  ⟨rfl, rfl, rfl, rfl, rfl,
    happy_path_final_state happyO ⟨"prod", "prod.bootstrap.kubeconfig"⟩
      ⟨"prod", "prod.kubeconfig"⟩ rfl rfl rfl rfl rfl rfl rfl rfl rfl rfl
      rfl rfl rfl rfl rfl rfl rfl rfl⟩

theorem initInfrastructure_rejects_invalid_witness :
    clusterInvalid (some ⟨"", "mgmt.kubeconfig"⟩) = true ∧
    (exceptIsError (initInfrastructure
        ⟨.ok "/home/user", .ok "clusterctl_tmp.yaml", none, none, none,
         "vsphere", "v0.7.8"⟩
        ⟨"v0.3.19", "v0.3.19", "v0.3.19", "v1.0.0", "v1.0.0", false⟩
        (some ⟨"", "mgmt.kubeconfig"⟩)).1 = true ∧
      (initInfrastructure
        ⟨.ok "/home/user", .ok "clusterctl_tmp.yaml", none, none, none,
         "vsphere", "v0.7.8"⟩
        ⟨"v0.3.19", "v0.3.19", "v0.3.19", "v1.0.0", "v1.0.0", false⟩
        (some ⟨"", "mgmt.kubeconfig"⟩)).2 = []) :=
  ⟨rfl, initInfrastructure_rejects_invalid _ _ _ rfl⟩

end EksA
